import Mathlib

/-!
Verification development for the buzzynotes license server.

The embedding models, from the source:
  * `generateEmailBasedLicense` (scripts/license-api.js): MD5 of the
    lower-cased email, hex digest upper-cased, first 16 chars, grouped
    `XXXX-XXXX-XXXX-XXXX`.  The MD5 algorithm itself (node's
    `crypto.createHash('md5')`) is implemented in full below over `Nat`
    with explicit `% 2^32` arithmetic.
  * the PostgreSQL store (scripts/database.js + the table schema from
    `initializeDatabase`): a `Store` of user rows and user-data rows,
    with `CURRENT_TIMESTAMP` modelled by a logical clock `Store.time`
    that advances on every mutating statement, and SQL result order
    modelled as insertion order (the queries carry no ORDER BY, except
    `getUserData`, which is modelled by its `ORDER BY updated_at DESC`).
  * the Express route handlers (scripts/license-api.js) and the Stripe
    webhook handler (scripts/stripe-webhook.js).
-/

namespace Buzzy

/-! ## Bit-level helpers (32-bit words as `Nat` mod 2^32) -/

def u32 (n : Nat) : Nat := n % 4294967296

/-- Left rotation of a 32-bit word.  For `x < 2^32` and `n ≤ 32`,
`x * 2^n + x / 2^(32-n)` is congruent mod `2^32` to the usual
`(x <<< n) ||| (x >>> (32-n))`. -/
def rotl (x n : Nat) : Nat := u32 (x * 2 ^ n + x / 2 ^ (32 - n))

/-- Bitwise NOT on 32-bit words. -/
def not32 (x : Nat) : Nat := x ^^^ 0xFFFFFFFF

/-! ## MD5 (the digest used by `crypto.createHash('md5')`) -/

/-- The 64 round constants `K[i] = floor(2^32 * |sin(i+1)|)`. -/
def md5K : List Nat :=
  [0xd76aa478, 0xe8c7b756, 0x242070db, 0xc1bdceee,
   0xf57c0faf, 0x4787c62a, 0xa8304613, 0xfd469501,
   0x698098d8, 0x8b44f7af, 0xffff5bb1, 0x895cd7be,
   0x6b901122, 0xfd987193, 0xa679438e, 0x49b40821,
   0xf61e2562, 0xc040b340, 0x265e5a51, 0xe9b6c7aa,
   0xd62f105d, 0x02441453, 0xd8a1e681, 0xe7d3fbc8,
   0x21e1cde6, 0xc33707d6, 0xf4d50d87, 0x455a14ed,
   0xa9e3e905, 0xfcefa3f8, 0x676f02d9, 0x8d2a4c8a,
   0xfffa3942, 0x8771f681, 0x6d9d6122, 0xfde5380c,
   0xa4beea44, 0x4bdecfa9, 0xf6bb4b60, 0xbebfbc70,
   0x289b7ec6, 0xeaa127fa, 0xd4ef3085, 0x04881d05,
   0xd9d4d039, 0xe6db99e5, 0x1fa27cf8, 0xc4ac5665,
   0xf4292244, 0x432aff97, 0xab9423a7, 0xfc93a039,
   0x655b59c3, 0x8f0ccc92, 0xffeff47d, 0x85845dd1,
   0x6fa87e4f, 0xfe2ce6e0, 0xa3014314, 0x4e0811a1,
   0xf7537e82, 0xbd3af235, 0x2ad7d2bb, 0xeb86d391]

/-- The per-round left-rotation amounts. -/
def md5S : List Nat :=
  [7, 12, 17, 22, 7, 12, 17, 22, 7, 12, 17, 22, 7, 12, 17, 22,
   5, 9, 14, 20, 5, 9, 14, 20, 5, 9, 14, 20, 5, 9, 14, 20,
   4, 11, 16, 23, 4, 11, 16, 23, 4, 11, 16, 23, 4, 11, 16, 23,
   6, 10, 15, 21, 6, 10, 15, 21, 6, 10, 15, 21, 6, 10, 15, 21]

structure MD5State where
  a : Nat
  b : Nat
  c : Nat
  d : Nat
deriving Repr, DecidableEq

def md5Init : MD5State := ⟨0x67452301, 0xefcdab89, 0x98badcfe, 0x10325476⟩

/-- One of the 64 MD5 rounds.  `ws` is the 16-word message schedule of
the current 512-bit block. -/
def md5Round (ws : List Nat) (st : MD5State) (i : Nat) : MD5State :=
  let fg : Nat × Nat :=
    if i < 16 then ((st.b &&& st.c) ||| (not32 st.b &&& st.d), i)
    else if i < 32 then ((st.d &&& st.b) ||| (not32 st.d &&& st.c), (5 * i + 1) % 16)
    else if i < 48 then (st.b ^^^ st.c ^^^ st.d, (3 * i + 5) % 16)
    else (st.c ^^^ (st.b ||| not32 st.d), (7 * i) % 16)
  let tmp := u32 (st.a + fg.1 + md5K.getD i 0 + ws.getD fg.2 0)
  ⟨st.d, u32 (st.b + rotl tmp (md5S.getD i 0)), st.b, st.c⟩

/-- Compress one 64-byte block into the running state. -/
def md5Compress (st : MD5State) (block : List Nat) : MD5State :=
  let ws := (List.range 16).map fun g =>
    block.getD (4 * g) 0 + 256 * block.getD (4 * g + 1) 0 +
      65536 * block.getD (4 * g + 2) 0 + 16777216 * block.getD (4 * g + 3) 0
  let r := (List.range 64).foldl (md5Round ws) st
  ⟨u32 (st.a + r.a), u32 (st.b + r.b), u32 (st.c + r.c), u32 (st.d + r.d)⟩

/-- MD5 padding: append `0x80`, zero-pad to 56 mod 64, then the
original length in bits as a 64-bit little-endian quantity. -/
def md5Pad (m : List Nat) : List Nat :=
  let padLen := (119 - m.length % 64) % 64
  m ++ [0x80] ++ List.replicate padLen 0 ++
    ((List.range 8).map fun i => m.length * 8 / 256 ^ i % 256)

/-- Fold `md5Compress` over the 64-byte blocks (fuelled structural
recursion; the fuel is the list length, which always suffices). -/
def md5Blocks : Nat → List Nat → MD5State → MD5State
  | 0, _, st => st
  | _ + 1, [], st => st
  | fuel + 1, l, st => md5Blocks fuel (l.drop 64) (md5Compress st (l.take 64))

/-- The 16 digest bytes: the four state words, little-endian. -/
def wordLE (w : Nat) : List Nat :=
  [w % 256, w / 256 % 256, w / 65536 % 256, w / 16777216 % 256]

def digestBytes (st : MD5State) : List Nat :=
  wordLE st.a ++ wordLE st.b ++ wordLE st.c ++ wordLE st.d

/-- UTF-8 encoding of one code point (emails are ASCII, one byte each). -/
def encodeChar (n : Nat) : List Nat :=
  if n < 128 then [n]
  else if n < 2048 then [192 + n / 64, 128 + n % 64]
  else if n < 65536 then [224 + n / 4096, 128 + n / 64 % 64, 128 + n % 64]
  else [240 + n / 262144, 128 + n / 4096 % 64, 128 + n / 64 % 64, 128 + n % 64]

def strBytes (s : String) : List Nat :=
  (s.toList.map fun c => encodeChar c.toNat).flatten

/-- MD5 digest of a string, as 16 bytes. -/
def md5Digest (s : String) : List Nat :=
  let padded := md5Pad (strBytes s)
  digestBytes (md5Blocks padded.length padded md5Init)

def hexDigitsLower : List Char := "0123456789abcdef".toList

def hexCharLower (n : Nat) : Char := hexDigitsLower.getD n '0'

def hexBytes : List Nat → List Char
  | [] => []
  | b :: rest => hexCharLower (b / 16) :: hexCharLower (b % 16) :: hexBytes rest

/-- `hash.digest('hex')`: the lower-case hexadecimal digest string. -/
def md5Hex (s : String) : String := String.mk (hexBytes (md5Digest s))

/-! ## Key Deriver (`generateEmailBasedLicense`, scripts/license-api.js) -/

/-- JS `String.prototype.toLowerCase` restricted to ASCII (email
addresses here are ASCII; `Char.toLower` agrees with JS on ASCII). -/
def strLower (s : String) : String := String.mk (s.toList.map Char.toLower)

/-- `match(/.{1,4}/g)`: split into chunks of four characters. -/
def chunk4 : List Char → List (List Char)
  | a :: b :: c :: d :: rest => [a, b, c, d] :: chunk4 rest
  | [] => []
  | l => [l]

/-- `.join('-')`. -/
def joinDash : List (List Char) → List Char
  | [] => []
  | [x] => x
  | x :: y :: ys => x ++ '-' :: joinDash (y :: ys)

/-- scripts/license-api.js lines 15-24: MD5 of the lower-cased email,
hex digest upper-cased, first 16 characters, grouped in fours with `-`. -/
def generateEmailBasedLicense (email : String) : String :=
  let hash := md5Hex (strLower email)
  let chars := (hash.toList.map Char.toUpper).take 16
  String.mk (joinDash (chunk4 chars))

/-- Modelled from the spec (Key Deriver, §4.1): "compute a deterministic
cryptographic digest of the lower-cased email; take the digest's
hexadecimal representation, upper-case it, take the first 16 hex
characters, and split into four groups of four separated by `-`" (the
digest documented by this implementation is MD5). -/
def deriveSpec (email : String) : String :=
  let h := ((md5Hex (strLower email)).toList.map Char.toUpper).take 16
  String.mk (h.take 4) ++ "-" ++ String.mk ((h.drop 4).take 4) ++ "-" ++
    String.mk ((h.drop 8).take 4) ++ "-" ++ String.mk ((h.drop 12).take 4)

/-! ## Email validation

The handlers validate with the regex `^[^\s@]+@[^\s@]+\.[^\s@]+$`.
A string matches iff it contains exactly one `@`, no whitespace, a
non-empty local part, and a `.` strictly inside the part after the `@`
(the character classes also admit `.`, so only one interior dot is
required).  JS `\s` agrees with `Char.isWhitespace` on ASCII. -/

def isEmailChar (c : Char) : Bool := !(c.isWhitespace || c == '@')

def validEmail (e : String) : Bool :=
  match e.toList.splitOn '@' with
  | [lp, dp] =>
    !lp.isEmpty && lp.all isEmailChar &&
    !dp.isEmpty && dp.all isEmailChar &&
    (dp.drop 1).dropLast.contains '.'
  | _ => false

/-! ## The store (PostgreSQL, schema from `initializeDatabase`)

`users`: `license_key UNIQUE NOT NULL`, `email` (NO unique constraint),
`status` default `'active'`, `plan_type` default `'premium'`,
timestamps.  `user_data`: `license_key`, `data_type`, `content`,
timestamps; its only unique constraint is the serial primary key `id` —
there is NO unique index on `(license_key, data_type)` (the schema only
creates the non-unique index `idx_user_data_type`). -/

structure UserRow where
  license_key : String
  email : String
  status : String
  plan_type : String
  created_at : Nat
  updated_at : Nat
deriving Repr, DecidableEq

structure UserDataRow where
  license_key : String
  data_type : String
  content : String
  created_at : Nat
  updated_at : Nat
deriving Repr, DecidableEq

structure Store where
  users : List UserRow
  user_data : List UserDataRow
  time : Nat
deriving Repr, DecidableEq

def emptyStore : Store := ⟨[], [], 1⟩

/-- The column lists covered by a unique constraint on `user_data`:
only the serial primary key.  (`initializeDatabase` creates
`idx_user_data_type` on `(license_key, data_type)` with CREATE INDEX,
not CREATE UNIQUE INDEX.) -/
def userDataUniqueIndexes : List (List String) := [["id"]]

inductive DbError where
  /-- the `throw new Error('Invalid or inactive license')` in `saveUserData` -/
  | invalidLicense : DbError
  /-- PostgreSQL 42P10: `ON CONFLICT` names columns with no matching
  unique or exclusion constraint; raised before any row is touched -/
  | noConflictTarget : DbError
deriving Repr, DecidableEq

structure VerifyResult where
  valid : Bool
  user : Option UserRow
deriving Repr, DecidableEq

/-- scripts/database.js `verifyLicense`: `SELECT ... WHERE license_key
= $1 AND status = 'active'`.  `broken` models the query throwing (store
outage); the `catch` branch returns `{valid:false, user:null}`. -/
def verifyLicense (broken : Bool) (s : Store) (licenseKey : String) : VerifyResult :=
  if broken then ⟨false, none⟩
  else
    match (s.users.filter fun r => r.license_key == licenseKey && r.status == "active").head? with
    | some u => ⟨true, some u⟩
    | none => ⟨false, none⟩

/-- scripts/database.js `activateLicense`: `INSERT ... ON CONFLICT
(license_key) DO UPDATE SET email = EXCLUDED.email, status = 'active',
updated_at = CURRENT_TIMESTAMP RETURNING *`.  `users.license_key` is
UNIQUE, so the conflict target is valid and the statement never raises
a unique violation: an existing key is updated (re-bound to the new
email), a fresh key is inserted. -/
def activateLicense (s : Store) (licenseKey email : String) : UserRow × Store :=
  if s.users.any (fun r => r.license_key == licenseKey) then
    let upd := fun r : UserRow =>
      if r.license_key == licenseKey then
        { r with email := email, status := "active", updated_at := s.time }
      else r
    let users2 := s.users.map upd
    ((users2.filter fun r => r.license_key == licenseKey).head?.getD
        ⟨"", "", "", "", 0, 0⟩,
     { s with users := users2, time := s.time + 1 })
  else
    let row : UserRow := ⟨licenseKey, email, "active", "premium", s.time, s.time⟩
    (row, { s with users := s.users ++ [row], time := s.time + 1 })

/-- scripts/database.js `saveUserData`: first a `SELECT` requiring an
active license (else it throws `invalidLicense`), then `INSERT INTO
user_data ... ON CONFLICT (license_key, data_type) DO UPDATE ...`.
PostgreSQL rejects that statement outright (42P10) because the schema
has no unique index on `(license_key, data_type)`; the upsert branch
below is therefore unreachable but kept for fidelity to the intended
statement. -/
def saveUserData (s : Store) (licenseKey dataType content : String) :
    Except DbError (Store × Nat) :=
  if (s.users.filter fun r => r.license_key == licenseKey && r.status == "active").isEmpty then
    .error .invalidLicense
  else if userDataUniqueIndexes.contains ["license_key", "data_type"] then
    if s.user_data.any (fun d => d.license_key == licenseKey && d.data_type == dataType) then
      .ok ({ s with
              user_data := s.user_data.map fun d =>
                if d.license_key == licenseKey && d.data_type == dataType then
                  { d with content := content, updated_at := s.time }
                else d,
              time := s.time + 1 }, s.time)
    else
      .ok ({ s with
              user_data := s.user_data ++ [⟨licenseKey, dataType, content, s.time, s.time⟩],
              time := s.time + 1 }, s.time)
  else
    .error .noConflictTarget

/-- `ORDER BY updated_at DESC LIMIT 1`: the row with the largest
`updated_at` (ties broken by first position; SQL leaves tie order
unspecified). -/
def maxByUpdated (l : List UserDataRow) : Option UserDataRow :=
  l.foldl (fun acc d =>
    match acc with
    | none => some d
    | some m => if d.updated_at > m.updated_at then some d else some m) none

/-- scripts/database.js `getUserData`; the `catch` branch (store
outage, `broken`) returns `null`, indistinguishable from no data. -/
def getUserData (broken : Bool) (s : Store) (licenseKey dataType : String) :
    Option (String × Nat) :=
  if broken then none
  else
    match maxByUpdated (s.user_data.filter fun d =>
        d.license_key == licenseKey && d.data_type == dataType) with
    | some d => some (d.content, d.updated_at)
    | none => none

/-! ## Route handlers (scripts/license-api.js)

Each handler is a function from the request fields and the store to a
response (and the new store, for mutating routes).  HTTP status 200 is
the implicit `res.json(...)` status. -/

structure ReqResponse where
  status : Nat
  success : Bool
  message : String
  licenseKey : Option String
  /-- the top-level `status` of the found branch / the `user.status` of
  the created branch -/
  licStatus : Option String
deriving Repr, DecidableEq

/-- The handler reports creation only through its message: `'License
created successfully'` on the insert branch, `'License found for this
email'` otherwise.  This is the spec's `created` flag. -/
def ReqResponse.createdFlag (r : ReqResponse) : Bool :=
  r.message == "License created successfully"

/-- scripts/license-api.js lines 355-428, `POST /api/request-license`:
validate, `SELECT ... WHERE email = $1` (raw email, case-sensitive);
if a row exists return it unchanged (no reactivation); else insert
`(generateEmailBasedLicense email, email, 'active', 'premium')`.  The
check-then-insert is not atomic; a unique violation on `license_key`
is caught by the generic handler as a 500. -/
def requestLicense (s : Store) (email : String) : ReqResponse × Store :=
  if email == "" then (⟨400, false, "Email is required", none, none⟩, s)
  else if !validEmail email then (⟨400, false, "Invalid email format", none, none⟩, s)
  else
    match (s.users.filter fun r => r.email == email).head? with
    | some u =>
      (⟨200, true, "License found for this email", some u.license_key, some u.status⟩, s)
    | none =>
      let key := generateEmailBasedLicense email
      if s.users.any (fun r => r.license_key == key) then
        (⟨500, false, "Failed to process license request", none, none⟩, s)
      else
        (⟨200, true, "License created successfully", some key, some "active"⟩,
         { s with users := s.users ++ [⟨key, email, "active", "premium", s.time, s.time⟩],
                  time := s.time + 1 })

structure GenResponse where
  status : Nat
  success : Bool
  message : String
  licenseKey : Option String
  action : Option String
deriving Repr, DecidableEq

/-- scripts/license-api.js lines 251-352, `POST /api/generate-license`:
like `request-license` but an existing inactive row is reactivated
(`UPDATE users SET status = 'active', updated_at = CURRENT_TIMESTAMP
WHERE email = $2`), and an insert conflict (23505) maps to 409. -/
def generateLicense (s : Store) (email : String) : GenResponse × Store :=
  if email == "" then (⟨400, false, "Email is required", none, none⟩, s)
  else if !validEmail email then (⟨400, false, "Invalid email format", none, none⟩, s)
  else
    match (s.users.filter fun r => r.email == email).head? with
    | some u =>
      if u.status == "active" then
        (⟨200, true, "License already exists for this email", some u.license_key,
          some "existing"⟩, s)
      else
        (⟨200, true, "License reactivated", some u.license_key, some "reactivated"⟩,
         { s with
            users := s.users.map fun r =>
              if r.email == email then { r with status := "active", updated_at := s.time }
              else r,
            time := s.time + 1 })
    | none =>
      let key := generateEmailBasedLicense email
      if s.users.any (fun r => r.license_key == key) then
        (⟨409, false, "License generation conflict. Please try again.", none, none⟩, s)
      else
        (⟨200, true, "License generated successfully", some key, some "created"⟩,
         { s with users := s.users ++ [⟨key, email, "active", "premium", s.time, s.time⟩],
                  time := s.time + 1 })

structure ActResponse where
  status : Nat
  success : Bool
  message : String
  userEmail : Option String
  userStatus : Option String
deriving Repr, DecidableEq

/-- scripts/license-api.js lines 73-124, `POST /api/activate-license`:
validate, then `activateLicense`.  The handler would map error code
23505 to a 409 `'License already activated'`, but `activateLicense`
absorbs every key conflict with its ON CONFLICT DO UPDATE, so that
branch is unreachable. -/
def activateLicenseRoute (s : Store) (licenseKey email : String) : ActResponse × Store :=
  if licenseKey == "" || email == "" then
    (⟨400, false, "License key and email are required", none, none⟩, s)
  else if !validEmail email then
    (⟨400, false, "Invalid email format", none, none⟩, s)
  else
    let us := activateLicense s licenseKey email
    (⟨200, true, "License activated successfully", some us.1.email, some us.1.status⟩, us.2)

structure VerResponse where
  status : Nat
  success : Bool
  message : String
  userEmail : Option String
deriving Repr, DecidableEq

/-- scripts/license-api.js lines 30-70, `POST /api/verify-license`.
The request body may lack `licenseKey` (`none`); JS `!licenseKey` also
rejects the empty string. -/
def verifyRoute (broken : Bool) (s : Store) (licenseKey : Option String) : VerResponse :=
  match licenseKey with
  | none => ⟨400, false, "Invalid license key format", none⟩
  | some key =>
    if key == "" then ⟨400, false, "Invalid license key format", none⟩
    else
      match verifyLicense broken s key with
      | ⟨true, some u⟩ => ⟨200, true, "License is valid", some u.email⟩
      | _ => ⟨404, false, "License not found or inactive", none⟩

structure UpResponse where
  status : Nat
  success : Bool
  message : String
  uploadedAt : Option Nat
deriving Repr, DecidableEq

/-- scripts/license-api.js lines 127-164, `POST /api/sync/upload`:
validate presence, gate on `verifyLicense`, then `saveUserData`; any
store error there is caught as a 500. -/
def uploadRoute (brokenVerify : Bool) (s : Store) (licenseKey dataType data : String) :
    UpResponse × Store :=
  if licenseKey == "" || data == "" then
    (⟨400, false, "License key and data are required", none⟩, s)
  else if !(verifyLicense brokenVerify s licenseKey).valid then
    (⟨403, false, "Invalid or inactive license", none⟩, s)
  else
    match saveUserData s licenseKey dataType data with
    | .ok (s2, t) => (⟨200, true, "Data uploaded successfully", some t⟩, s2)
    | .error _ => (⟨500, false, "Failed to upload data", none⟩, s)

structure DownResponse where
  status : Nat
  success : Bool
  message : String
  data : Option String
  lastModified : Option Nat
deriving Repr, DecidableEq

/-- scripts/license-api.js lines 166-205, `GET
/api/sync/download/:licenseKey`: gate on `verifyLicense`, then
`getUserData`; a `null` result (including the swallowed store outage)
yields a 200 with `data: null`. -/
def downloadRoute (brokenVerify brokenData : Bool) (s : Store) (licenseKey dataType : String) :
    DownResponse :=
  if !(verifyLicense brokenVerify s licenseKey).valid then
    ⟨403, false, "Invalid or inactive license", none, none⟩
  else
    match getUserData brokenData s licenseKey dataType with
    | some (c, t) => ⟨200, true, "", some c, some t⟩
    | none => ⟨200, true, "No data found for this license", none, none⟩

structure CheckResponse where
  status : Nat
  success : Bool
  hasLicense : Bool
  licenseKey : Option String
  licStatus : Option String
  plan : Option String
  created : Option Nat
deriving Repr, DecidableEq

/-- scripts/license-api.js lines 431-475, `GET /api/check-email/:email`:
no authentication, no payment check; a stored row is disclosed in
full (`license_key`, `status`, `plan_type`, `created_at`). -/
def checkEmailRoute (s : Store) (email : String) : CheckResponse :=
  if email == "" then ⟨400, false, false, none, none, none, none⟩
  else
    match (s.users.filter fun r => r.email == email).head? with
    | some u => ⟨200, true, true, some u.license_key, some u.status, some u.plan_type,
                 some u.created_at⟩
    | none => ⟨200, true, false, none, none, none, none⟩

/-! ## Stripe webhook (scripts/stripe-webhook.js) -/

def licenseChars : List Char := "ABCDEFGHIJKLMNOPQRSTUVWXYZ0123456789".toList

/-- scripts/stripe-webhook.js lines 189-202, `generateLicenseKey`:
sixteen RANDOM characters from `[A-Z0-9]` with a dash every four.
`rand i` models the i-th `Math.floor(Math.random() * 36)` draw (taken
mod 36 to reflect its range). -/
def generateLicenseKey (rand : Nat → Nat) : String :=
  String.mk <| (List.range 16).foldl (fun acc i =>
    acc ++ (if i > 0 && i % 4 == 0 then ['-'] else []) ++
      [licenseChars.getD (rand i % 36) 'A']) []

/-- scripts/stripe-webhook.js lines 91-117, `handleCheckoutCompleted`
(runs after signature verification): if the session has a customer
email, generate a fresh RANDOM key — not derived from the email, no
lookup by email — and `activateLicense` it. -/
def handleCheckoutCompleted (s : Store) (customerEmail : Option String)
    (rand : Nat → Nat) : Store :=
  match customerEmail with
  | none => s
  | some email => (activateLicense s (generateLicenseKey rand) email).2

/-! ## Interleaving machine for concurrent `request-license` calls

Each in-flight request is one process; its handler is split at the
await points that touch the store: the `SELECT` (check) and the
`INSERT`.  A schedule interleaves single steps of the processes over
the shared store, modelling request-parallel handlers. -/

inductive ReqPhase where
  | start : ReqPhase
  | checked : Option UserRow → ReqPhase
  | done : ReqResponse → ReqPhase
deriving Repr, DecidableEq

structure ReqProc where
  email : String
  phase : ReqPhase
deriving Repr, DecidableEq

def mkProc (e : String) : ReqProc := ⟨e, .start⟩

/-- One atomic step of a single `request-license` handler. -/
def stepProc (s : Store) (p : ReqProc) : ReqProc × Store :=
  match p.phase with
  | .start =>
    if p.email == "" then
      ({ p with phase := .done ⟨400, false, "Email is required", none, none⟩ }, s)
    else if !validEmail p.email then
      ({ p with phase := .done ⟨400, false, "Invalid email format", none, none⟩ }, s)
    else
      ({ p with phase := .checked ((s.users.filter fun r => r.email == p.email).head?) }, s)
  | .checked (some u) =>
    let r : ReqResponse :=
      ⟨200, true, "License found for this email", some u.license_key, some u.status⟩
    ({ p with phase := .done r }, s)
  | .checked none =>
    let key := generateEmailBasedLicense p.email
    if s.users.any (fun r => r.license_key == key) then
      ({ p with phase := .done ⟨500, false, "Failed to process license request", none, none⟩ }, s)
    else
      let r : ReqResponse := ⟨200, true, "License created successfully", some key, some "active"⟩
      ({ p with phase := .done r },
       { s with users := s.users ++ [⟨key, p.email, "active", "premium", s.time, s.time⟩],
                time := s.time + 1 })
  | .done _ => (p, s)

/-- Run a schedule: each entry names the process that performs its next
step (out-of-range entries are skipped). -/
def runSched : List Nat → List ReqProc → Store → List ReqProc × Store
  | [], ps, s => (ps, s)
  | i :: rest, ps, s =>
    match ps[i]? with
    | none => runSched rest ps s
    | some p =>
      let q := stepProc s p
      runSched rest (ps.set i q.1) q.2

/-! ## Facts about the Key Deriver -/

def hexDigitsUpper : List Char := "0123456789ABCDEF".toList

/-- The key alphabet `[A-F0-9-]`. -/
def keyAlphabet : List Char := hexDigitsUpper ++ ['-']

lemma digestBytes_length (st : MD5State) : (digestBytes st).length = 16 := by
  simp [digestBytes, wordLE]

lemma hexBytes_length (l : List Nat) : (hexBytes l).length = 2 * l.length := by
  induction l with
  | nil => simp [hexBytes]
  | cons b rest ih => simp [hexBytes, ih]; omega

lemma hexCharLower_mem (n : Nat) : hexCharLower n ∈ hexDigitsLower := by
  rw [hexCharLower, List.getD_eq_getElem?_getD]
  cases h : hexDigitsLower[n]? with
  | none => simp [Option.getD]; decide
  | some c => simpa [Option.getD] using List.getElem?_mem h

lemma hexBytes_mem (l : List Nat) : ∀ c ∈ hexBytes l, c ∈ hexDigitsLower := by
  induction l with
  | nil => simp [hexBytes]
  | cons b rest ih =>
    intro c hc
    simp only [hexBytes, List.mem_cons] at hc
    rcases hc with rfl | rfl | h
    · exact hexCharLower_mem _
    · exact hexCharLower_mem _
    · exact ih c h

lemma md5Hex_length (s : String) : (md5Hex s).toList.length = 32 := by
  show (hexBytes (md5Digest s)).length = 32
  rw [hexBytes_length]
  show 2 * (digestBytes _).length = 32
  rw [digestBytes_length]

lemma md5Hex_mem (s : String) : ∀ c ∈ (md5Hex s).toList, c ∈ hexDigitsLower := by
  show ∀ c ∈ hexBytes (md5Digest s), c ∈ hexDigitsLower
  exact hexBytes_mem _

lemma toUpper_hex_mem : ∀ c ∈ hexDigitsLower, Char.toUpper c ∈ hexDigitsUpper := by decide

lemma chunk4_eq_nil {cs : List Char} : chunk4 cs = [] ↔ cs = [] := by
  constructor
  · intro h
    match cs with
    | [] => rfl
    | [a] => simp [chunk4] at h
    | [a, b] => simp [chunk4] at h
    | [a, b, c] => simp [chunk4] at h
    | a :: b :: c :: d :: rest => simp [chunk4] at h
  · intro h; subst h; rfl

/-- Every character of the formatted key comes from the grouped
characters or is a dash (fuelled induction along `chunk4`). -/
lemma joinDash_chunk4_mem :
    ∀ (n : Nat) (cs : List Char), cs.length ≤ n →
      ∀ c ∈ joinDash (chunk4 cs), c ∈ cs ∨ c = '-' := by
  intro n
  induction n with
  | zero =>
    intro cs h c hc
    have : cs = [] := by
      cases cs with
      | nil => rfl
      | cons a t => simp at h
    subst this
    simp [chunk4, joinDash] at hc
  | succ n ih =>
    intro cs h c hc
    match cs with
    | [] => simp [chunk4, joinDash] at hc
    | [a] => simp [chunk4, joinDash] at hc; simp [hc]
    | [a, b] =>
      simp [chunk4, joinDash] at hc
      rcases hc with rfl | rfl <;> simp
    | [a, b, c'] =>
      simp [chunk4, joinDash] at hc
      rcases hc with rfl | rfl | rfl <;> simp
    | a :: b :: c' :: d :: rest =>
      rw [chunk4] at hc
      cases hcr : chunk4 rest with
      | nil =>
        have : rest = [] := chunk4_eq_nil.mp hcr
        subst this
        simp [joinDash, hcr] at hc
        rcases hc with rfl | rfl | rfl | rfl <;> simp
      | cons x xs =>
        rw [hcr, joinDash] at hc
        rcases List.mem_append.mp hc with h4 | hx
        · left
          simp only [List.mem_cons, List.not_mem_nil, or_false] at h4 ⊢
          tauto
        · rcases List.mem_cons.mp hx with rfl | hrest
          · right; rfl
          · have hlen : rest.length ≤ n := by simp at h; omega
            have hmem : c ∈ joinDash (chunk4 rest) := by rw [hcr]; exact hrest
            rcases ih rest hlen c hmem with hr | hd
            · left; simp only [List.mem_cons]; tauto
            · right; exact hd

/-- On a sixteen-character list, `chunk4` followed by `joinDash` is the
four dash-separated groups of four. -/
lemma joinDash_chunk4_sixteen (l : List Char) (hl : l.length = 16) :
    joinDash (chunk4 l) =
      l.take 4 ++ '-' :: ((l.drop 4).take 4 ++ '-' ::
        ((l.drop 8).take 4 ++ '-' :: (l.drop 12).take 4)) := by
  rcases l with _|⟨a1,_|⟨a2,_|⟨a3,_|⟨a4,_|⟨a5,_|⟨a6,_|⟨a7,_|⟨a8,_|⟨a9,_|⟨a10,_|⟨a11,_|⟨a12,_|⟨a13,_|⟨a14,_|⟨a15,_|⟨a16,_|⟨a17,l⟩⟩⟩⟩⟩⟩⟩⟩⟩⟩⟩⟩⟩⟩⟩⟩⟩
  all_goals simp at hl
  rfl

lemma mk_append (a b : List Char) : String.mk a ++ String.mk b = String.mk (a ++ b) := rfl

lemma strLower_congr {e1 e2 : String} (h : strLower e1 = strLower e2) :
    generateEmailBasedLicense e1 = generateEmailBasedLicense e2 := by
  simp only [generateEmailBasedLicense, h]

lemma md5Hex_strLength (s : String) : (md5Hex s).length = 32 := md5Hex_length s

lemma upper16_length (e : String) :
    (((md5Hex (strLower e)).toList.map Char.toUpper).take 16).length = 16 := by
  simp [List.length_take, md5Hex_strLength]

lemma upper16_mem (e : String) :
    ∀ c ∈ ((md5Hex (strLower e)).toList.map Char.toUpper).take 16, c ∈ hexDigitsUpper := by
  intro c hc
  have hc2 := List.take_subset 16 _ hc
  rcases List.mem_map.mp hc2 with ⟨c0, hc0, rfl⟩
  exact toUpper_hex_mem c0 (md5Hex_mem _ c0 hc0)

/-- **C2.** For every email string `e`, the source's
`generateEmailBasedLicense` agrees with the spec's reference
derivation (lower-case, digest, hex, upper-case, first 16, four
dash-separated groups of four); the result always has 19 characters,
all of them in the alphabet `[A-F0-9-]`; and the derivation depends
only on the lower-cased email, so any two case variants (emails with
equal `strLower`) derive the same key — in particular
`derive("A@B.com") = derive("a@b.com")`.  Determinism is immediate:
the function is pure, with no stored counter or randomness. -/
theorem C2_key_derivation (e : String) :
    generateEmailBasedLicense e = deriveSpec e ∧
    (generateEmailBasedLicense e).length = 19 ∧
    (∀ c ∈ (generateEmailBasedLicense e).toList, c ∈ keyAlphabet) ∧
    (∀ e2, strLower e = strLower e2 →
      generateEmailBasedLicense e = generateEmailBasedLicense e2) := by
  have hshape := joinDash_chunk4_sixteen _ (upper16_length e)
  refine ⟨?_, ?_, ?_, fun e2 h => strLower_congr h⟩
  · show String.mk (joinDash (chunk4 _)) = deriveSpec e
    rw [hshape]
    apply String.ext
    simp [deriveSpec, String.data_append]
  · have h16 := upper16_length e
    show (String.mk (joinDash (chunk4 _))).length = 19
    rw [hshape]
    show (List.length _) = 19
    generalize hg : ((md5Hex (strLower e)).toList.map Char.toUpper).take 16 = L at h16 ⊢
    simp [List.length_append, List.length_take, List.length_drop, h16]
  · intro c hc
    have hm := joinDash_chunk4_mem
      (((md5Hex (strLower e)).toList.map Char.toUpper).take 16).length _ le_rfl c hc
    rcases hm with hin | rfl
    · exact List.mem_append_left _ (upper16_mem e c hin)
    · simp [keyAlphabet]

/-- Witness for C2: instantiated at the case-variant pair from the
claim, with the hypothesis `strLower "A@B.com" = strLower "a@b.com"`
discharged by evaluation. -/
theorem C2_key_derivation_witness :
    generateEmailBasedLicense "A@B.com" = deriveSpec "A@B.com" ∧
    (generateEmailBasedLicense "A@B.com").length = 19 ∧
    generateEmailBasedLicense "A@B.com" = generateEmailBasedLicense "a@b.com" :=
  ⟨(C2_key_derivation "A@B.com").1, (C2_key_derivation "A@B.com").2.1,
   (C2_key_derivation "A@B.com").2.2.2 "a@b.com" (by decide)⟩

set_option maxRecDepth 40000 in
/-- The derived key for the claim's concrete emails, checked against
the reference MD5 value (md5("a@b.com") = 357a20e8c56e69d6...). -/
theorem derive_concrete_value :
    generateEmailBasedLicense "A@B.com" = "357A-20E8-C56E-69D6" ∧
    generateEmailBasedLicense "test@example.com" = "5550-2F40-DC8B-7C76" := by decide

/-! ## Facts about the Reconciler routes -/

lemma validEmail_ne_empty {e : String} (hv : validEmail e = true) : (e == "") = false := by
  rcases h : e == "" with _ | _
  · rfl
  · exfalso
    have : e = "" := by simpa using h
    subst this
    simp [validEmail] at hv

/-- **C3.**  From a store holding no row for the (exact) email and no
row with its derived key, two sequential `request-license` calls for a
valid email return the identical `licenseKey` (the derived one), the
first reports creation (`created=true`, i.e. the `'License created
successfully'` message), the second reports `created=false` (`'License
found for this email'`), and the second call leaves the store — in
particular the License row — unchanged. -/
theorem C3_request_license_idempotent (s : Store) (e : String)
    (hv : validEmail e = true)
    (hno : (s.users.filter fun r => r.email == e) = [])
    (hkey : (s.users.any fun r => r.license_key == generateEmailBasedLicense e) = false) :
    (requestLicense s e).1.createdFlag = true ∧
    (requestLicense (requestLicense s e).2 e).1.createdFlag = false ∧
    (requestLicense s e).1.licenseKey = some (generateEmailBasedLicense e) ∧
    (requestLicense (requestLicense s e).2 e).1.licenseKey =
      (requestLicense s e).1.licenseKey ∧
    (requestLicense (requestLicense s e).2 e).2 = (requestLicense s e).2 := by
  have he := validEmail_ne_empty hv
  have h1 : requestLicense s e =
      (⟨200, true, "License created successfully",
        some (generateEmailBasedLicense e), some "active"⟩,
       { s with
          users :=
            s.users ++ [⟨generateEmailBasedLicense e, e, "active", "premium", s.time, s.time⟩],
          time := s.time + 1 }) := by
    rw [requestLicense]
    simp [he, hv, hno, hkey]
  have h2 : (requestLicense s e).2.users.filter (fun r => r.email == e) =
      [⟨generateEmailBasedLicense e, e, "active", "premium", s.time, s.time⟩] := by
    rw [h1]
    simp [List.filter_append, hno]
  rw [h1] at h2
  rw [h1]
  constructor
  · rfl
  refine ⟨?_, rfl, ?_, ?_⟩ <;>
    · rw [requestLicense]
      simp [he, hv, h2, ReqResponse.createdFlag]

/-- Witness for C3 at the empty store and `"a@b.com"`. -/
theorem C3_witness :
    (requestLicense emptyStore "a@b.com").1.createdFlag = true ∧
    (requestLicense (requestLicense emptyStore "a@b.com").2 "a@b.com").1.createdFlag = false ∧
    (requestLicense emptyStore "a@b.com").1.licenseKey =
      some (generateEmailBasedLicense "a@b.com") ∧
    (requestLicense (requestLicense emptyStore "a@b.com").2 "a@b.com").1.licenseKey =
      (requestLicense emptyStore "a@b.com").1.licenseKey ∧
    (requestLicense (requestLicense emptyStore "a@b.com").2 "a@b.com").2 =
      (requestLicense emptyStore "a@b.com").2 :=
  C3_request_license_idempotent emptyStore "a@b.com" (by decide) (by decide) (by decide)

/-- A store whose only License row is inactive (email `x@y.com`). -/
def inactiveStore : Store :=
  ⟨[⟨"AAAA-AAAA-AAAA-AAAA", "x@y.com", "inactive", "premium", 0, 0⟩], [], 1⟩

/-- **C4 counterexample.**  Against a store whose License for
`x@y.com` is inactive, `request-license` returns the existing key but
does NOT flip the status back to active and does not bump `updatedAt`:
the store is returned unchanged and the response even reports the
`inactive` status.  (The reactivation behaviour the claim describes
lives in the `/api/generate-license` handler, not in
`/api/request-license`.) -/
theorem C4_counterexample :
    (requestLicense inactiveStore "x@y.com").2 = inactiveStore ∧
    (requestLicense inactiveStore "x@y.com").2.users.map UserRow.status = ["inactive"] ∧
    (requestLicense inactiveStore "x@y.com").1.licenseKey = some "AAAA-AAAA-AAAA-AAAA" ∧
    (requestLicense inactiveStore "x@y.com").1.licStatus = some "inactive" := by decide

/-- **C4 amended.**  For an email whose stored License is inactive,
`request-license` returns the existing key with `created=false` but
leaves the row (status, `updatedAt`) untouched; it is the
`/api/generate-license` handler that reactivates: it flips every row
of that email to `active`, sets `updated_at` to the current timestamp,
and returns the existing key with action `reactivated`. -/
theorem C4_amended (s : Store) (e : String) (u : UserRow)
    (hv : validEmail e = true)
    (hu : (s.users.filter fun r => r.email == e).head? = some u)
    (hinact : (u.status == "active") = false) :
    requestLicense s e =
      (⟨200, true, "License found for this email", some u.license_key, some u.status⟩, s) ∧
    generateLicense s e =
      (⟨200, true, "License reactivated", some u.license_key, some "reactivated"⟩,
       { s with
          users := s.users.map fun r =>
            if r.email == e then { r with status := "active", updated_at := s.time } else r,
          time := s.time + 1 }) := by
  have he := validEmail_ne_empty hv
  constructor
  · rw [requestLicense]
    simp [he, hv, hu]
  · rw [generateLicense]
    simp [he, hv, hu, hinact]

/-- Witness for C4's amended statement at `inactiveStore`. -/
theorem C4_amended_witness :
    requestLicense inactiveStore "x@y.com" =
      (⟨200, true, "License found for this email", some "AAAA-AAAA-AAAA-AAAA",
        some "inactive"⟩, inactiveStore) ∧
    generateLicense inactiveStore "x@y.com" =
      (⟨200, true, "License reactivated", some "AAAA-AAAA-AAAA-AAAA", some "reactivated"⟩,
       { inactiveStore with
          users := inactiveStore.users.map fun r =>
            if r.email == "x@y.com" then
              { r with status := "active", updated_at := inactiveStore.time }
            else r,
          time := inactiveStore.time + 1 }) :=
  C4_amended inactiveStore "x@y.com"
    ⟨"AAAA-AAAA-AAAA-AAAA", "x@y.com", "inactive", "premium", 0, 0⟩
    (by decide) (by decide) (by decide)

/-! ## Facts about the Data Sync Gate -/

/-- A store with one active License row and one data row for it. -/
def activeStore : Store :=
  ⟨[⟨"AAAA-AAAA-AAAA-AAAA", "x@y.com", "active", "premium", 0, 0⟩],
   [⟨"AAAA-AAAA-AAAA-AAAA", "notes", "hello", 0, 0⟩], 1⟩

/-- **C5 (code bug).**  Whenever the license gate passes (there is an
active row for the key), `saveUserData` unconditionally fails with
PostgreSQL's 42P10 — its `INSERT ... ON CONFLICT (license_key,
data_type)` names columns not covered by any unique index in the
schema created by `initializeDatabase` — so every upload request with
a valid active license answers 500 and never writes a `user_data`
row, contradicting the claimed (and clearly intended) last-write-wins
upsert. -/
theorem C5_upsert_rejected (s : Store) (k dt c : String) (u : UserRow)
    (hk : (k == "") = false) (hc : (c == "") = false)
    (hu : (s.users.filter fun r => r.license_key == k && r.status == "active").head? = some u) :
    saveUserData s k dt c = .error .noConflictTarget ∧
    uploadRoute false s k dt c = (⟨500, false, "Failed to upload data", none⟩, s) := by
  have hne : (s.users.filter fun r => r.license_key == k && r.status == "active").isEmpty
      = false := by
    rcases hfe : s.users.filter fun r => r.license_key == k && r.status == "active" with _ | _
    · rw [hfe] at hu; simp at hu
    · simp [hfe]
  have hmem : ["license_key", "data_type"] ∉ userDataUniqueIndexes := by decide
  have hsave : saveUserData s k dt c = .error .noConflictTarget := by
    rw [saveUserData]
    simp [hne, hmem]
  refine ⟨hsave, ?_⟩
  rw [uploadRoute]
  have hvalid : (verifyLicense false s k).valid = true := by
    rw [verifyLicense]
    simp [hu]
  simp [hk, hc, hvalid, hsave]

/-- Witness for C5 at `activeStore`. -/
theorem C5_upsert_rejected_witness :
    saveUserData activeStore "AAAA-AAAA-AAAA-AAAA" "notes" "world" =
      .error .noConflictTarget ∧
    uploadRoute false activeStore "AAAA-AAAA-AAAA-AAAA" "notes" "world" =
      (⟨500, false, "Failed to upload data", none⟩, activeStore) :=
  C5_upsert_rejected activeStore "AAAA-AAAA-AAAA-AAAA" "notes" "world"
    ⟨"AAAA-AAAA-AAAA-AAAA", "x@y.com", "active", "premium", 0, 0⟩
    (by decide) (by decide) (by decide)

/-! ## Facts about the Webhook Event Processor -/

/-- **C6 counterexample.**  Two verified checkout-completed events for
the same customer email leave TWO License rows for that email: the
handler generates a fresh random key each time and upserts by key,
never looking the email up.  (With draws all-0 and all-1 the random
keys are `AAAA-AAAA-AAAA-AAAA` and `BBBB-BBBB-BBBB-BBBB` — neither
derived from the email.) -/
theorem C6_counterexample :
    ((handleCheckoutCompleted
        (handleCheckoutCompleted emptyStore (some "x@y.com") fun _ => 0)
        (some "x@y.com") fun _ => 1).users.map
      fun r => (r.license_key, r.email, r.status)) =
    [("AAAA-AAAA-AAAA-AAAA", "x@y.com", "active"),
     ("BBBB-BBBB-BBBB-BBBB", "x@y.com", "active")] := by decide

/-- **C6 amended.**  A verified checkout-completed event carrying a
customer email activates by KEY, not by email: it draws a random key
(not derived from the email) and, when that key is fresh, appends a
new active `premium` License row for the email with no existing-row
check — so an email that already has a License gets a second row.
(Only if the random key collided with an existing row would that row
be re-bound to the email and set active.) -/
theorem C6_amended (s : Store) (e : String) (rand : Nat → Nat)
    (hfresh : (s.users.any fun r => r.license_key == generateLicenseKey rand) = false) :
    handleCheckoutCompleted s (some e) rand =
      { s with
          users := s.users ++
            [⟨generateLicenseKey rand, e, "active", "premium", s.time, s.time⟩],
          time := s.time + 1 } := by
  rw [handleCheckoutCompleted, activateLicense]
  simp [hfresh]

/-- Witness for C6's amended statement: one checkout event on the
empty store appends one row with the random key. -/
theorem C6_amended_witness :
    handleCheckoutCompleted emptyStore (some "x@y.com") (fun _ => 0) =
      { emptyStore with
          users := emptyStore.users ++
            [⟨generateLicenseKey (fun _ => 0), "x@y.com", "active", "premium",
              emptyStore.time, emptyStore.time⟩],
          time := emptyStore.time + 1 } :=
  C6_amended emptyStore "x@y.com" (fun _ => 0) (by decide)

/-- The store obtained by activating key `CCCC-...` for `e1@x.com`. -/
def boundStore : Store :=
  (activateLicenseRoute emptyStore "CCCC-CCCC-CCCC-CCCC" "e1@x.com").2

/-- **C7 counterexample.**  Activating an already-existing key with a
DIFFERENT email answers 200 (not 409) and silently re-binds the row to
the caller-supplied email: the claimed 409-and-unchanged behaviour
does not happen. -/
theorem C7_counterexample :
    (activateLicenseRoute boundStore "CCCC-CCCC-CCCC-CCCC" "e2@x.com").1.status = 200 ∧
    ((activateLicenseRoute boundStore "CCCC-CCCC-CCCC-CCCC" "e2@x.com").2.users.map
      fun r => (r.license_key, r.email, r.status)) =
    [("CCCC-CCCC-CCCC-CCCC", "e2@x.com", "active")] := by decide

/-- **C7 amended.**  For an existing `licenseKey`, `POST
/api/activate-license` (with a well-formed email) answers 200 and
UPDATES the row: the email is replaced by the caller-supplied one,
the status is set to active and `updated_at` to the current timestamp;
no new row appears.  The handler's 409 branch is dead: no
`activate-license` request ever returns 409, because the upsert
absorbs every key conflict. -/
theorem C7_amended (s : Store) (k e : String)
    (hk : (k == "") = false) (hv : validEmail e = true)
    (hex : (s.users.any fun r => r.license_key == k) = true) :
    (activateLicenseRoute s k e).1.status = 200 ∧
    (activateLicenseRoute s k e).2.users =
      (s.users.map fun r =>
        if r.license_key == k then
          { r with email := e, status := "active", updated_at := s.time }
        else r) ∧
    (∀ s2 k2 e2, (activateLicenseRoute s2 k2 e2).1.status ≠ 409) := by
  have he := validEmail_ne_empty hv
  have hroute : ∀ s2 k2 e2, (activateLicenseRoute s2 k2 e2).1.status ≠ 409 := by
    intro s2 k2 e2
    rw [activateLicenseRoute]
    rcases hk2 : k2 == "" with _ | _ <;> rcases he2 : e2 == "" with _ | _ <;>
      rcases hv2 : validEmail e2 with _ | _ <;> simp [activateLicense]
  refine ⟨?_, ?_, hroute⟩ <;>
    · rw [activateLicenseRoute]
      simp [hk, he, hv, activateLicense, hex]

/-- Witness for C7's amended statement at `boundStore`. -/
theorem C7_amended_witness :
    (activateLicenseRoute boundStore "CCCC-CCCC-CCCC-CCCC" "e2@x.com").1.status = 200 ∧
    (activateLicenseRoute boundStore "CCCC-CCCC-CCCC-CCCC" "e2@x.com").2.users =
      (boundStore.users.map fun r =>
        if r.license_key == "CCCC-CCCC-CCCC-CCCC" then
          { r with email := "e2@x.com", status := "active", updated_at := boundStore.time }
        else r) ∧
    (∀ s2 k2 e2, (activateLicenseRoute s2 k2 e2).1.status ≠ 409) :=
  C7_amended boundStore "CCCC-CCCC-CCCC-CCCC" "e2@x.com" (by decide) (by decide) (by decide)

/-! ## Facts about error handling on the read paths -/

/-- **C8 counterexample.**  `activeStore` holds a perfectly valid
active license and a data row for it, yet when the store call fails
(`broken = true`) `verify-license` answers 404 `'License not found or
inactive'` and `download` answers 200 with `data: null, 'No data
found for this license'`: the outage is converted into exactly the
success-shaped not-found responses the claim forbids. -/
theorem C8_counterexample :
    verifyRoute true activeStore (some "AAAA-AAAA-AAAA-AAAA") =
      ⟨404, false, "License not found or inactive", none⟩ ∧
    downloadRoute false true activeStore "AAAA-AAAA-AAAA-AAAA" "notes" =
      ⟨200, true, "No data found for this license", none, none⟩ := by decide

/-- **C8 amended.**  Store failures on the read paths are swallowed,
not surfaced: a failing `verifyLicense` query makes `verify-license`
answer 404 not-found for EVERY key and store, and for a license that
(actually) verifies, a failing `getUserData` query makes `download`
answer 200 with `data: null` — indistinguishable from "no data yet".
Neither path can produce a 5xx from a store outage inside these two
db functions. -/
theorem C8_amended (s : Store) (k dt : String)
    (hk : (k == "") = false)
    (hvalid : (verifyLicense false s k).valid = true) :
    verifyRoute true s (some k) = ⟨404, false, "License not found or inactive", none⟩ ∧
    downloadRoute false true s k dt =
      ⟨200, true, "No data found for this license", none, none⟩ := by
  constructor
  · rw [verifyRoute]
    simp [hk, verifyLicense]
  · rw [downloadRoute]
    simp [hvalid, getUserData]

/-- Witness for C8's amended statement at `activeStore`. -/
theorem C8_amended_witness :
    verifyRoute true activeStore (some "AAAA-AAAA-AAAA-AAAA") =
      ⟨404, false, "License not found or inactive", none⟩ ∧
    downloadRoute false true activeStore "AAAA-AAAA-AAAA-AAAA" "other" =
      ⟨200, true, "No data found for this license", none, none⟩ :=
  C8_amended activeStore "AAAA-AAAA-AAAA-AAAA" "other" (by decide) (by decide)

/-- **C9.**  A `licenseKey` with no active License row (missing or
inactive) makes upload answer 403 `'Invalid or inactive license'`
WITHOUT touching the store (no partial write: the returned store is
the argument store), and download answer the same 403. -/
theorem C9_sync_gate (s : Store) (k dt d : String)
    (hk : (k == "") = false) (hd : (d == "") = false)
    (hnone : (s.users.filter fun r => r.license_key == k && r.status == "active") = []) :
    uploadRoute false s k dt d = (⟨403, false, "Invalid or inactive license", none⟩, s) ∧
    downloadRoute false false s k dt = ⟨403, false, "Invalid or inactive license", none, none⟩ := by
  have hval : (verifyLicense false s k).valid = false := by
    rw [verifyLicense]
    simp [hnone]
  constructor
  · rw [uploadRoute]
    simp [hk, hd, hval]
  · rw [downloadRoute]
    simp [hval]

/-- A store whose only License row is inactive, with a stale data row. -/
def inactiveDataStore : Store :=
  ⟨[⟨"DDDD-DDDD-DDDD-DDDD", "z@w.com", "inactive", "premium", 0, 0⟩],
   [⟨"DDDD-DDDD-DDDD-DDDD", "notes", "old", 0, 0⟩], 1⟩

/-- Witness for C9 at a store whose row for the key is inactive. -/
theorem C9_sync_gate_witness :
    uploadRoute false inactiveDataStore "DDDD-DDDD-DDDD-DDDD" "notes" "new" =
      (⟨403, false, "Invalid or inactive license", none⟩, inactiveDataStore) ∧
    downloadRoute false false inactiveDataStore "DDDD-DDDD-DDDD-DDDD" "notes" =
      ⟨403, false, "Invalid or inactive license", none, none⟩ :=
  C9_sync_gate inactiveDataStore "DDDD-DDDD-DDDD-DDDD" "notes" "new"
    (by decide) (by decide) (by decide)

/-- **C10.**  `GET /api/check-email/:email` requires no authentication
or payment evidence: for any email with a stored License row it
answers 200 success disclosing the full `licenseKey`, `status`,
`plan_type` and `created_at` of that row; for an email with no row it
answers 200 success with `hasLicense = false`. -/
theorem C10_check_email (s : Store) (e : String) (he : (e == "") = false) :
    (∀ u, (s.users.filter fun r => r.email == e).head? = some u →
      checkEmailRoute s e =
        ⟨200, true, true, some u.license_key, some u.status, some u.plan_type,
         some u.created_at⟩) ∧
    ((s.users.filter fun r => r.email == e).head? = none →
      checkEmailRoute s e = ⟨200, true, false, none, none, none, none⟩) := by
  constructor
  · intro u hu
    rw [checkEmailRoute]
    simp [he, hu]
  · intro hn
    rw [checkEmailRoute]
    simp [he, hn]

/-- Witness for C10: the found case at `activeStore` (full key
disclosed) and the not-found case at the empty store. -/
theorem C10_check_email_witness :
    checkEmailRoute activeStore "x@y.com" =
      ⟨200, true, true, some "AAAA-AAAA-AAAA-AAAA", some "active", some "premium", some 0⟩ ∧
    checkEmailRoute emptyStore "x@y.com" = ⟨200, true, false, none, none, none, none⟩ :=
  ⟨(C10_check_email activeStore "x@y.com" (by decide)).1
      ⟨"AAAA-AAAA-AAAA-AAAA", "x@y.com", "active", "premium", 0, 0⟩ (by decide),
   (C10_check_email emptyStore "x@y.com" (by decide)).2 (by decide)⟩

/-! ## The uniqueness invariant under concurrent `request-license` -/

/-- Every state the interleaved `request-license` machine reaches from
the empty store satisfies: license keys are pairwise distinct (the
UNIQUE constraint, respected because every insert first checks for a
key conflict atomically), and every row's key is the one derived from
its stored email. -/
def StoreKeysInv (s : Store) : Prop :=
  s.users.Pairwise (fun r1 r2 => r1.license_key ≠ r2.license_key) ∧
  ∀ r ∈ s.users, r.license_key = generateEmailBasedLicense r.email

/-- Per-process invariant: a saved `SELECT` result is a genuine row of
the email being requested, carrying its derived key; a finished
200 response carries the derived key of the request's email. -/
def ProcInv (p : ReqProc) : Prop :=
  match p.phase with
  | .start => True
  | .checked none => True
  | .checked (some u) =>
    u.email = p.email ∧ u.license_key = generateEmailBasedLicense p.email
  | .done r => r.status = 200 → r.licenseKey = some (generateEmailBasedLicense p.email)

lemma stepProc_inv (s : Store) (p : ReqProc)
    (hs : StoreKeysInv s) (hp : ProcInv p) :
    StoreKeysInv (stepProc s p).2 ∧ ProcInv (stepProc s p).1 := by
  obtain ⟨hpw, hder⟩ := hs
  cases hph : p.phase with
  | start =>
    simp only [stepProc, hph]
    rcases he : p.email == "" with _ | _
    · rcases hv : validEmail p.email with _ | _
      · simp only [he, hv, Bool.false_eq_true, if_false, Bool.not_false, if_true]
        exact ⟨⟨hpw, hder⟩, by simp [ProcInv]⟩
      · simp only [he, hv, Bool.false_eq_true, if_false, Bool.not_true, if_true]
        refine ⟨⟨hpw, hder⟩, ?_⟩
        rw [ProcInv]
        cases hh : (s.users.filter fun r => r.email == p.email).head? with
        | none => simp [hh]
        | some u =>
          have hu : u ∈ s.users.filter fun r => r.email == p.email :=
            List.mem_of_mem_head? (by rw [hh]; rfl)
          have ⟨hmem, hcond⟩ := List.mem_filter.mp hu
          have hue : u.email = p.email := by simpa using hcond
          simp only [hh]
          exact ⟨hue, by rw [hder u hmem, hue]⟩
    · simp only [he, if_true]
      exact ⟨⟨hpw, hder⟩, by simp [ProcInv]⟩
  | checked ou =>
    cases ou with
    | none =>
      simp only [stepProc, hph]
      rcases hany : s.users.any fun r => r.license_key == generateEmailBasedLicense p.email
        with _ | _
      · simp only [hany, Bool.false_eq_true, if_false]
        refine ⟨⟨?_, ?_⟩, ?_⟩
        · rw [List.pairwise_append]
          refine ⟨hpw, by simp, ?_⟩
          intro a ha b hb
          have hb2 : b = (⟨generateEmailBasedLicense p.email, p.email, "active", "premium",
              s.time, s.time⟩ : UserRow) := by simpa using hb
          subst hb2
          intro hcontra
          have : ∃ x ∈ s.users, (x.license_key == generateEmailBasedLicense p.email) = true := by
            exact ⟨a, ha, by simp [hcontra]⟩
          rw [← List.any_eq_true] at this
          rw [hany] at this
          exact Bool.false_ne_true this
        · intro r hr
          rcases List.mem_append.mp hr with h | h
          · exact hder r h
          · have : r = (⟨generateEmailBasedLicense p.email, p.email, "active", "premium",
                s.time, s.time⟩ : UserRow) := by simpa using h
            subst this
            rfl
        · rw [ProcInv]
          intro
          rfl
      · simp only [hany, if_true]
        exact ⟨⟨hpw, hder⟩, by rw [ProcInv]; intro h; simp at h⟩
    | some u =>
      simp only [stepProc, hph]
      rw [ProcInv, hph] at hp
      refine ⟨⟨hpw, hder⟩, ?_⟩
      rw [ProcInv]
      intro
      simp [hp.2]
  | done r =>
    simp only [stepProc, hph]
    exact ⟨⟨hpw, hder⟩, by rw [ProcInv, hph] at hp ⊢; exact hp⟩

lemma runSched_inv (sched : List Nat) :
    ∀ (ps : List ReqProc) (s : Store),
      StoreKeysInv s → (∀ p ∈ ps, ProcInv p) →
      StoreKeysInv (runSched sched ps s).2 ∧
        ∀ p ∈ (runSched sched ps s).1, ProcInv p := by
  induction sched with
  | nil => intro ps s hs hps; exact ⟨hs, hps⟩
  | cons i rest ih =>
    intro ps s hs hps
    rw [runSched]
    cases hg : ps[i]? with
    | none => exact ih ps s hs hps
    | some p =>
      have hmem : p ∈ ps := List.getElem?_mem hg
      have hstep := stepProc_inv s p hs (hps p hmem)
      refine ih _ _ hstep.1 ?_
      intro q hq
      rcases List.mem_or_eq_of_mem_set hq with h | h
      · exact hps q h
      · exact h ▸ hstep.2

lemma storeKeysInv_email_pairwise {s : Store} (h : StoreKeysInv s) :
    s.users.Pairwise (fun r1 r2 => strLower r1.email ≠ strLower r2.email) := by
  obtain ⟨hpw, hder⟩ := h
  refine hpw.imp_of_mem ?_
  intro a b ha hb hk heq
  apply hk
  rw [hder a ha, hder b hb]
  exact strLower_congr heq

set_option maxRecDepth 100000 in
/-- **C1 counterexample.**  The claimed invariant fails on reachable
states, and concurrent duplicate requests do not all receive the key.
(i) Two `activate-license` requests with different keys and the same
email reach a store with TWO License rows for the one (already
normalized) email `x@y.com`.  (ii) Interleaving two `request-license`
handlers for `a@b.com` (both pass the existence check before either
inserts) leaves exactly one row, but the second response is a 500
carrying no `licenseKey` at all, not the shared key. -/
theorem C1_counterexample :
    (((activateLicenseRoute
          (activateLicenseRoute emptyStore "AAAA-AAAA-AAAA-AAAA" "x@y.com").2
          "BBBB-BBBB-BBBB-BBBB" "x@y.com").2.users.map
        fun r => (r.email, r.license_key)) =
      [("x@y.com", "AAAA-AAAA-AAAA-AAAA"), ("x@y.com", "BBBB-BBBB-BBBB-BBBB")]) ∧
    ((runSched [0, 1, 0, 1] [mkProc "a@b.com", mkProc "a@b.com"] emptyStore).2.users.map
        fun r => r.email) = ["a@b.com"] ∧
    ((runSched [0, 1, 0, 1] [mkProc "a@b.com", mkProc "a@b.com"] emptyStore).1.map
        fun p => p.phase) =
      [.done ⟨200, true, "License created successfully", some "357A-20E8-C56E-69D6",
         some "active"⟩,
       .done ⟨500, false, "Failed to process license request", none, none⟩] := by decide

/-- **C1 amended.**  Restricted to `request-license` traffic (any
number of handlers, any interleaving of their check and insert steps,
from the empty store): at most one License row ever exists per
normalized (lower-cased) email — guaranteed by the UNIQUE `license_key`
plus deterministic derivation, not by an email constraint — and every
200 response for an email carries that email's derived key, so all
successful responses for the same (case-variant) email agree on the
key.  A racing duplicate may instead receive a 500 conflict error
carrying no key, and other write paths (`activate-license`, the
checkout webhook) do not preserve the one-row-per-email invariant. -/
theorem C1_uniqueness_under_requests (sched : List Nat) (emails : List String) :
    (runSched sched (emails.map mkProc) emptyStore).2.users.Pairwise
      (fun r1 r2 => strLower r1.email ≠ strLower r2.email) ∧
    ∀ p ∈ (runSched sched (emails.map mkProc) emptyStore).1, ∀ resp,
      p.phase = ReqPhase.done resp → resp.status = 200 →
        resp.licenseKey = some (generateEmailBasedLicense p.email) := by
  have hinit : ∀ p ∈ emails.map mkProc, ProcInv p := by
    intro p hp
    rcases List.mem_map.mp hp with ⟨e, _, rfl⟩
    exact trivial
  have h := runSched_inv sched (emails.map mkProc) emptyStore
    ⟨by simp [emptyStore], by simp [emptyStore]⟩ hinit
  refine ⟨storeKeysInv_email_pairwise h.1, ?_⟩
  intro p hp resp hresp h200
  have := h.2 p hp
  rw [ProcInv, hresp] at this
  exact this h200

set_option maxRecDepth 40000 in
/-- Witness for C1's amended statement: a two-process race on
`a@b.com`; the machine's winner response is a 200 carrying exactly the
derived key. -/
theorem C1_uniqueness_witness :
    ((runSched [0, 1, 0, 1] [mkProc "a@b.com", mkProc "a@b.com"] emptyStore).2.users.Pairwise
      (fun r1 r2 => strLower r1.email ≠ strLower r2.email)) ∧
    (⟨"a@b.com", .done ⟨200, true, "License created successfully",
        some "357A-20E8-C56E-69D6", some "active"⟩⟩ : ReqProc) ∈
      (runSched [0, 1, 0, 1] [mkProc "a@b.com", mkProc "a@b.com"] emptyStore).1 ∧
    some "357A-20E8-C56E-69D6" = some (generateEmailBasedLicense "a@b.com") :=
  ⟨(C1_uniqueness_under_requests [0, 1, 0, 1] ["a@b.com", "a@b.com"]).1,
   by decide,
   (C1_uniqueness_under_requests [0, 1, 0, 1] ["a@b.com", "a@b.com"]).2
     ⟨"a@b.com", .done ⟨200, true, "License created successfully",
        some "357A-20E8-C56E-69D6", some "active"⟩⟩
     (by decide) _ rfl rfl⟩

end Buzzy
